import Mathlib

set_option autoImplicit false

/-!
Verification development for the Wysteria repository: a shallow embedding in
Lean 4 of the server routes (Elysia controllers), the better-auth
configuration, the database model objects, the cluster entry point and the
React login form submit logic, together with theorems settling the claims of
the natural-language specification against the code.
-/

namespace Wysteria

/-! ## Data model

The user record, as described by `UserModel.user` in
`src/modules/v1/user/model.ts`. Optional/nullable fields are modelled with
`Option` (`none` = absent or null). Dates are modelled as `Nat` timestamps. -/

structure UserRecord where
  id : String
  name : String
  email : String
  phoneNumber : Option String
  emailVerified : Bool
  phoneNumberVerified : Option Bool
  image : Option String
  createdAt : Nat
  updatedAt : Nat
  deriving Repr, DecidableEq

/-- Modelled from the spec: the session row lives in the better-auth generated
`auth-schema.ts`, which is not among the repository sources; per the spec the
session entity is a schema definition consumed directly by the auth library,
so only the fields the application observes are modelled. -/
structure SessionRecord where
  id : String
  userId : String
  token : String
  expiresAt : Nat
  deriving Repr, DecidableEq

/-- Modelled from the spec: the account row of the better-auth generated
`auth-schema.ts` (not among the repository sources). -/
structure AccountRecord where
  id : String
  userId : String
  providerId : String
  accountId : String
  deriving Repr, DecidableEq

/-- Modelled from the spec: the verification row of the better-auth generated
`auth-schema.ts` (not among the repository sources). -/
structure VerificationRecord where
  id : String
  identifier : String
  value : String
  expiresAt : Nat
  deriving Repr, DecidableEq

/-- The whole relational state: one list per table of the schema
(user, session, account, verification). -/
structure DBState where
  users : List UserRecord
  sessions : List SessionRecord
  accounts : List AccountRecord
  verifications : List VerificationRecord
  deriving Repr, DecidableEq

/-! ## Auth service (`authService` in the auth-service module)

The route-level `auth: true` annotation resolves the session before the
handler runs: it calls `auth.api.getSession` on the request headers, throws
`status(401, { error: 'Unauthorized' })` when no session comes back, and
otherwise returns `{ user: session.user, session: session.session }` into the
handler context. The result of `getSession` is modelled as an
`Option FullSession`. -/

structure FullSession where
  user : UserRecord
  session : SessionRecord
  deriving Repr, DecidableEq

/-- The context the auth annotation supplies to a protected handler. -/
structure AuthContext where
  user : UserRecord
  session : SessionRecord
  deriving Repr, DecidableEq

/-- The body `\x7b error: 'Unauthorized' \x7d` of the 401 response. -/
structure UnauthorizedBody where
  error : String
  deriving Repr, DecidableEq

/-- A thrown `status(code, body)` response from the auth resolve step. -/
structure AuthFailure where
  status : Nat
  body : UnauthorizedBody
  deriving Repr, DecidableEq

/-- The `resolve` function of the `auth` annotation in the auth-service
module: given the result of `auth.api.getSession`, either throw 401 or
produce the handler context. -/
def authResolve (sess : Option FullSession) : Except AuthFailure AuthContext :=
  match sess with
  | none => Except.error { status := 401, body := { error := "Unauthorized" } }
  | some s => Except.ok { user := s.user, session := s.session }

/-- Running a route declared with `auth: true`: the resolve step runs first
and the handler only runs on its successful result. -/
def runAuthedRoute {α : Type} (sess : Option FullSession)
    (handler : AuthContext → α) : Except AuthFailure α :=
  (authResolve sess).map handler

/-! ## User controller (`userController` in `src/modules/v1/user/index.ts`) -/

/-- A thrown `status(code, message)` response with a plain string message,
as in `throw status(404, 'User not found')`. -/
structure StatusFailure where
  status : Nat
  message : String
  deriving Repr, DecidableEq

/-- Embedding of `User.getUserById` in `src/modules/v1/user/service.ts`:
`db.query.user.findFirst(\x7b where: eq(schema.user.id, id) \x7d)`, i.e. the
first user row whose id equals the argument. -/
def getUserById (db : DBState) (id : String) : Option UserRecord :=
  db.users.find? (fun u => u.id == id)

/-- The handler of `GET /:id` in the user controller: look the user up via
`User.getUserById`; throw `status(404, 'User not found')` when nothing comes
back, otherwise return the user record. The `params` schema
`t.Object(\x7b id: t.String() \x7d)` is embedded by the `String` type of `id`. -/
def getUserByIdRoute (db : DBState) (id : String) :
    Except StatusFailure UserRecord :=
  match getUserById db id with
  | none => Except.error { status := 404, message := "User not found" }
  | some u => Except.ok u

/-! ## PATCH /me handler -/

/-- The `UserModel.updateProfile` body: `name` optional string, `image`
optional string-or-null (outer `Option` = key present, inner `Option` =
null vs string). -/
structure UpdateProfileBody where
  name : Option String
  image : Option (Option String)
  deriving Repr, DecidableEq

/-- A database write action. `updateUser` is the embedding of
`User.updateUser` in `src/modules/v1/user/service.ts`
(`db.update(schema.user).set(data).where(eq(schema.user.id, id))`),
here specialised to the profile fields the module can set. -/
inductive DbWrite where
  | updateUser (id : String) (data : UpdateProfileBody)
  deriving Repr, DecidableEq

/-- Apply a profile patch to a stored user row (the `set` part of the
drizzle update). -/
def applyProfilePatch (u : UserRecord) (data : UpdateProfileBody) : UserRecord :=
  { u with
    name := data.name.getD u.name
    image := data.image.getD u.image }

/-- Apply one write action to the database state. -/
def applyWrite (db : DBState) (w : DbWrite) : DBState :=
  match w with
  | DbWrite.updateUser id data =>
    { db with
      users := db.users.map (fun u => if u.id == id then applyProfilePatch u data else u) }

/-- Apply a list of write actions in order. -/
def applyWrites (db : DBState) (ws : List DbWrite) : DBState :=
  ws.foldl applyWrite db

/-- The handler of `PATCH /me` in the user controller. It returns
`\x7b ...user, ...body, updatedAt: new Date() \x7d` and issues no database
write (the database update is a TODO in the source); the second component is
the list of write actions the handler performs. -/
def patchMeHandler (user : UserRecord) (body : UpdateProfileBody) (now : Nat) :
    UserRecord × List DbWrite :=
  ({ user with
     name := body.name.getD user.name
     image := body.image.getD user.image
     updatedAt := now },
   [])

/-! ## Better-auth configuration (the `auth` object of the auth module)

The configuration object passed to `betterAuth` is embedded field by field:
the social providers, the plugin list, the OTP options of the two OTP
plugins, and the session options. -/

/-- The OTP type better-auth passes to `sendVerificationOTP`. -/
inductive OTPType where
  | signIn
  | emailVerification
  | forgetPassword
  deriving Repr, DecidableEq

/-- A delivery the configured senders delegate to: `sendOTPEmail` of
`src/lib/email.ts` or `sendSMS` of the SNS module. -/
inductive DeliveryAction where
  | sendOTPEmail (email : String) (otp : String) (t : OTPType)
  | sendSMS (phoneNumber : String) (message : String)
  deriving Repr, DecidableEq

/-- The `sendVerificationOTP` callback of the `emailOTP` plugin:
`await sendOTPEmail(email, otp, type)`. -/
def emailOTPSendVerificationOTP (email otp : String) (t : OTPType) : DeliveryAction :=
  DeliveryAction.sendOTPEmail email otp t

/-- The `sendOTP` callback of the `phoneNumber` plugin:
`await sendSMS(phoneNumber, "Your Wysteria verification code is: " + code)`. -/
def phoneNumberSendOTP (phoneNumber code : String) : DeliveryAction :=
  DeliveryAction.sendSMS phoneNumber ("Your Wysteria verification code is: " ++ code)

/-- The numeric options shared by both OTP plugin configurations. -/
structure OTPOptions where
  otpLength : Nat
  expiresIn : Nat
  allowedAttempts : Nat
  deriving Repr, DecidableEq

/-- The options of the `emailOTP` plugin in the `betterAuth` call:
`otpLength: 6, expiresIn: 300, allowedAttempts: 3`. -/
def emailOTPOptions : OTPOptions :=
  { otpLength := 6, expiresIn := 300, allowedAttempts := 3 }

/-- The options of the `phoneNumber` plugin in the `betterAuth` call:
`otpLength: 6, expiresIn: 300, allowedAttempts: 3`. -/
def phoneNumberOTPOptions : OTPOptions :=
  { otpLength := 6, expiresIn := 300, allowedAttempts := 3 }

/-- Expiry stated in the body of the email template
`src/emails/email-verification-otp.tsx`: "This code will expire in
5 minutes." -/
def emailTemplateExpiryMinutes : Nat := 5

/-- The social OAuth providers configurable in `socialProviders`. -/
inductive SocialProvider where
  | google
  | apple
  deriving Repr, DecidableEq

/-- The plugins passed to `betterAuth` in the `plugins` array. -/
inductive AuthPlugin where
  | emailOTPPlugin
  | phoneNumberPlugin
  | openAPIPlugin
  deriving Repr, DecidableEq

/-- The shape of the `betterAuth` options object, restricted to the fields
the claims are about. `emailAndPasswordEnabled` records whether the
`emailAndPassword` option is present and enabled; better-auth leaves
password sign-in disabled unless that option enables it. -/
structure BetterAuthConfig where
  basePath : String
  socialProviders : List SocialProvider
  plugins : List AuthPlugin
  emailAndPasswordEnabled : Bool
  sessionExpiresIn : Nat
  sessionUpdateAge : Nat
  trustedOrigins : List String
  deriving Repr, DecidableEq

/-- The `auth` configuration of the auth module: Google and Apple social
providers, the `emailOTP`, `phoneNumber` and `openAPI` plugins, no
`emailAndPassword` option (so password sign-in keeps its disabled default),
session ttl of 7 days updated every 24 hours. -/
def authConfig : BetterAuthConfig :=
  { basePath := "/api/auth"
    socialProviders := [SocialProvider.google, SocialProvider.apple]
    plugins := [AuthPlugin.emailOTPPlugin, AuthPlugin.phoneNumberPlugin,
                AuthPlugin.openAPIPlugin]
    emailAndPasswordEnabled := false
    sessionExpiresIn := 60 * 60 * 24 * 7
    sessionUpdateAge := 60 * 60 * 24
    trustedOrigins := ["https://wysteria.io", "https://appleid.apple.com"] }

/-- The ways a user can sign in. -/
inductive SignInMethod where
  | oauthGoogle
  | oauthApple
  | emailOTPSignIn
  | phoneOTPSignIn
  | password
  deriving Repr, DecidableEq

/-- The sign-in methods a `betterAuth` configuration enables: one OAuth
method per social provider, one OTP method per OTP plugin (the `openAPI`
plugin adds none), and password sign-in exactly when the `emailAndPassword`
option enables it. -/
def enabledSignInMethods (c : BetterAuthConfig) : List SignInMethod :=
  (c.socialProviders.map fun p =>
    match p with
    | SocialProvider.google => SignInMethod.oauthGoogle
    | SocialProvider.apple => SignInMethod.oauthApple)
  ++ (c.plugins.filterMap fun p =>
    match p with
    | AuthPlugin.emailOTPPlugin => some SignInMethod.emailOTPSignIn
    | AuthPlugin.phoneNumberPlugin => some SignInMethod.phoneOTPSignIn
    | AuthPlugin.openAPIPlugin => none)
  ++ (if c.emailAndPasswordEnabled then [SignInMethod.password] else [])

/-! ## Temporary account identity (`signUpOnVerification` of the
`phoneNumber` plugin) -/

/-- Embedding of `phoneNumber.replace(/\+/g, '')`: drop every plus
character, keep everything else in order. -/
def removePlusChars : List Char → List Char
  | [] => []
  | c :: cs => if c = '+' then removePlusChars cs else c :: removePlusChars cs

/-- Embedding of `getTempEmail` of `signUpOnVerification`:
the phone number with `/\+/g` replaced by the empty string, followed by
`@temp.wysteria.io`. -/
def getTempEmail (phoneNumber : String) : String :=
  String.mk (removePlusChars phoneNumber.data) ++ "@temp.wysteria.io"

/-- Embedding of `getTempName` of `signUpOnVerification`: the string
`User ` followed by the phone
number. -/
def getTempName (phoneNumber : String) : String :=
  "User " ++ phoneNumber

/-! ## Cluster entry point -/

/-- The actions the entry point can take: fork a worker via
`cluster.fork()`, or load the server module via `import('./server')`. -/
inductive ClusterAction where
  | fork
  | loadServer
  deriving Repr, DecidableEq

/-- The actions the entry point performs at startup, given `isProduction`
(`NODE_ENV === 'production'`), `cluster.isPrimary`, and
`os.availableParallelism()`: the production primary forks one worker per
CPU; a production worker loads the server; outside production the server is
loaded once with no forking. -/
def entryStartupActions (isProduction isPrimary : Bool) (numCPUs : Nat) :
    List ClusterAction :=
  if isProduction then
    if isPrimary then List.replicate numCPUs ClusterAction.fork
    else [ClusterAction.loadServer]
  else [ClusterAction.loadServer]

/-- The actions the registered `cluster.on('exit', ...)` handler performs
per worker exit: the handler (one `cluster.fork()` call) exists only in the
production primary; elsewhere no handler is registered. -/
def workerExitActions (isProduction isPrimary : Bool) : List ClusterAction :=
  if isProduction && isPrimary then [ClusterAction.fork] else []

/-! ## Centralized database models (`src/db/models.ts` and
`src/db/schema/index.ts`) -/

/-- The table names of the relational schema. -/
inductive TableName where
  | user
  | session
  | account
  | verification
  deriving Repr, DecidableEq

/-- Modelled from the spec: the better-auth generated `auth-schema.ts`
imported by `src/db/schema/index.ts` is not among the repository sources;
per the spec the entities are the schema definitions user, session, account
and verification, so the module exports exactly these four tables. -/
def authSchemaTables : List TableName :=
  [TableName.user, TableName.session, TableName.account, TableName.verification]

/-- The `table` object of `src/db/schema/index.ts`:
`\x7b ...authSchema \x7d`, i.e. every table of the auth schema. -/
def tableExports : List TableName := authSchemaTables

/-- The keys of `db.insert` in `src/db/models.ts`: user (with customized
email and name validation), session, account, verification. -/
def dbInsertKeys : List TableName :=
  [TableName.user, TableName.session, TableName.account, TableName.verification]

/-- The keys of `db.select` in `src/db/models.ts`: user, session, account,
verification. -/
def dbSelectKeys : List TableName :=
  [TableName.user, TableName.session, TableName.account, TableName.verification]

/-! ## Login form (`LoginForm` in the frontend module)

The form state is the `useForm` value object: `identifier`, `otp`, `step`
and `method`. The submit handler is embedded as a pure transition function
parameterised over the external collaborators: the phone-number library
(`isValidPhoneNumber`, E.164 formatting) and the outcomes of the awaited
auth-client calls. -/

/-- The `AuthMethod` union of the frontend module. -/
inductive AuthMethod where
  | email
  | phone
  deriving Repr, DecidableEq

/-- The `Step` union of the frontend module: `"login" | "verify"`. -/
inductive Step where
  | login
  | verify
  deriving Repr, DecidableEq

/-- The string literal of each `Step` value in the `z.enum` of the form
schema. -/
def stepName : Step → String
  | Step.login => "login"
  | Step.verify => "verify"

/-- All values of the `Step` type, in declaration order. -/
def stepValues : List Step := [Step.login, Step.verify]

/-- The `useForm` value object of `LoginForm`. -/
structure FormState where
  identifier : String
  otp : String
  step : Step
  method : AuthMethod
  deriving Repr, DecidableEq

/-- The auth-client calls the submit handler can await. -/
inductive AuthCall where
  | phoneSendOtp (phoneNumber : String)
  | emailSendVerificationOtp (email : String)
  | signInEmailOtp (email : String) (otp : String)
  | phoneVerify (phoneNumber : String) (code : String)
  deriving Repr, DecidableEq

/-- Outcome of an awaited send-code call: the promise resolves, or it
throws (rejects). -/
inductive SendOutcome where
  | resolved
  | threw
  deriving Repr, DecidableEq

/-- Outcome of an awaited verification call: it resolves without an `error`
field (a session is established), resolves with an `error` field, or
throws. -/
inductive VerifyOutcome where
  | ok
  | errored
  | threw
  deriving Repr, DecidableEq

/-- The external collaborators of the submit handler: the phone-number
library and the auth client, treated as black boxes. -/
structure ClientEnv where
  isValidPhone : String → Bool
  formatE164 : String → String
  sendOutcome : AuthCall → SendOutcome
  verifyOutcome : AuthCall → VerifyOutcome

/-- Embedding of the JavaScript `String.prototype.trim` used on the
identifier: remove leading and trailing whitespace. -/
def trimWS (s : String) : String :=
  String.mk (((s.data.dropWhile Char.isWhitespace).reverse.dropWhile
    Char.isWhitespace).reverse)

/-- The send-code call the login branch awaits for a given state:
`authClient.phoneNumber.sendOtp` on the E.164-formatted trimmed input when
the input is a valid phone number, otherwise
`authClient.emailOtp.sendVerificationOtp` on the trimmed input. -/
def loginSendCall (env : ClientEnv) (s : FormState) : AuthCall :=
  let input := trimWS s.identifier
  if env.isValidPhone input then
    AuthCall.phoneSendOtp (env.formatE164 input)
  else
    AuthCall.emailSendVerificationOtp input

/-- The verification call the verify branch awaits for a given state:
`authClient.signIn.emailOtp` for the email method,
`authClient.phoneNumber.verify` for the phone method. -/
def verifyStepCall (s : FormState) : AuthCall :=
  match s.method with
  | AuthMethod.email => AuthCall.signInEmailOtp s.identifier s.otp
  | AuthMethod.phone => AuthCall.phoneVerify s.identifier s.otp

/-- The `onSubmit` handler of `LoginForm`, as a transition on the form
state. The result is the new form state, the list of auth-client calls
awaited, and whether a session was established by this submit. In the login
branch the handler trims the input, detects the method, sets `method`,
awaits the send-code call and, only when it resolves, writes the identifier
(E.164-formatted for phone) and sets `step` to verify; a thrown send is
caught and only shows a toast. In the verify branch the handler awaits the
verification call; all roads leave the form state unchanged, and a session
exists exactly when the call resolves without an error. -/
def onSubmit (env : ClientEnv) (s : FormState) : FormState × List AuthCall × Bool :=
  match s.step with
  | Step.login =>
    let input := trimWS s.identifier
    let isPhone := env.isValidPhone input
    let detectedMethod := if isPhone then AuthMethod.phone else AuthMethod.email
    let s1 : FormState := { s with method := detectedMethod }
    if isPhone then
      let formattedPhone := env.formatE164 input
      let call := AuthCall.phoneSendOtp formattedPhone
      match env.sendOutcome call with
      | SendOutcome.resolved =>
        ({ s1 with identifier := formattedPhone, step := Step.verify }, [call], false)
      | SendOutcome.threw => (s1, [call], false)
    else
      let call := AuthCall.emailSendVerificationOtp input
      match env.sendOutcome call with
      | SendOutcome.resolved =>
        ({ s1 with identifier := input, step := Step.verify }, [call], false)
      | SendOutcome.threw => (s1, [call], false)
  | Step.verify =>
    let call := verifyStepCall s
    match env.verifyOutcome call with
    | VerifyOutcome.ok => (s, [call], true)
    | VerifyOutcome.errored => (s, [call], false)
    | VerifyOutcome.threw => (s, [call], false)

/-! ## Sample environments for witnesses -/

/-- A client environment in which every awaited auth-client call resolves
successfully and every input counts as a phone number. -/
def envResolved : ClientEnv :=
  { isValidPhone := fun _ => true
    formatE164 := fun s => "+1" ++ s
    sendOutcome := fun _ => SendOutcome.resolved
    verifyOutcome := fun _ => VerifyOutcome.ok }

/-- A client environment in which every awaited auth-client call throws and
no input counts as a phone number. -/
def envThrew : ClientEnv :=
  { isValidPhone := fun _ => false
    formatE164 := fun s => s
    sendOutcome := fun _ => SendOutcome.threw
    verifyOutcome := fun _ => VerifyOutcome.threw }

/-! ## Claim theorems -/

/-- C1: for every request to a route declared with `auth: true`, the
resolve step of the auth annotation runs before the handler (when the
session is missing the response does not depend on the handler at all), it
throws a 401 response with body error = "Unauthorized" exactly when
`auth.api.getSession` returns no session for the request headers, and
otherwise the handler context receives `session.user` and
`session.session`. -/
theorem authedRoute_resolves_session_first {α : Type} (sess : Option FullSession)
    (handler : AuthContext → α) :
    (runAuthedRoute sess handler =
        Except.error { status := 401, body := { error := "Unauthorized" } } ↔
      sess = none)
    ∧ (∀ handler2 : AuthContext → α, sess = none →
        runAuthedRoute sess handler = runAuthedRoute sess handler2)
    ∧ (∀ fs : FullSession, sess = some fs →
        runAuthedRoute sess handler =
          Except.ok (handler { user := fs.user, session := fs.session })) := by
  cases sess <;> simp [runAuthedRoute, authResolve, Except.map]

/-- Witness for C1: the 401 branch on a missing session and the handler
branch on a present session, at concrete inputs. -/
theorem authedRoute_resolves_session_first_witness :
    runAuthedRoute none (fun _ => (0 : Nat)) =
      Except.error { status := 401, body := { error := "Unauthorized" } }
    ∧ runAuthedRoute
        (some { user := { id := "u1", name := "Ada", email := "ada@wysteria.io",
                          phoneNumber := none, emailVerified := true,
                          phoneNumberVerified := none, image := none,
                          createdAt := 0, updatedAt := 7 },
                session := { id := "s1", userId := "u1", token := "t",
                             expiresAt := 100 } })
        (fun c => c.user.updatedAt) = Except.ok 7 := by
  constructor
  · exact ((authedRoute_resolves_session_first none (fun _ => (0 : Nat))).1).mpr rfl
  · exact (authedRoute_resolves_session_first _ (fun c => c.user.updatedAt)).2.2 _ rfl

/-- C3: both OTP plugins are configured with otpLength 6, expiresIn 300
seconds and allowedAttempts 3, and the 5-minute expiry stated by the
verification email template equals the configured expiresIn of 300
seconds. -/
theorem otp_configuration_consistent :
    emailOTPOptions.otpLength = 6
    ∧ emailOTPOptions.expiresIn = 300
    ∧ emailOTPOptions.allowedAttempts = 3
    ∧ phoneNumberOTPOptions.otpLength = 6
    ∧ phoneNumberOTPOptions.expiresIn = 300
    ∧ phoneNumberOTPOptions.allowedAttempts = 3
    ∧ emailTemplateExpiryMinutes * 60 = emailOTPOptions.expiresIn
    ∧ emailTemplateExpiryMinutes * 60 = phoneNumberOTPOptions.expiresIn := by
  decide

/-- C4: the PATCH /me handler performs no database write: its write list is
empty, applying its writes to any database state is the identity, and its
response is exactly the session user spread with the body fields and a
fresh updatedAt. -/
theorem patchMe_pure_no_db_write (user : UserRecord) (body : UpdateProfileBody)
    (now : Nat) :
    (patchMeHandler user body now).2 = []
    ∧ (∀ db : DBState, applyWrites db (patchMeHandler user body now).2 = db)
    ∧ (patchMeHandler user body now).1 =
        { id := user.id
          name := body.name.getD user.name
          email := user.email
          phoneNumber := user.phoneNumber
          emailVerified := user.emailVerified
          phoneNumberVerified := user.phoneNumberVerified
          image := body.image.getD user.image
          createdAt := user.createdAt
          updatedAt := now } :=
  ⟨rfl, fun _ => rfl, rfl⟩

/-- C5: the GET /:id handler (with the id path parameter typed as a string
by the params schema) delegates the lookup to `User.getUserById` and fails
with status 404 and message "User not found" exactly when that query finds
no user; when a user exists it responds with that user record. -/
theorem getUserByIdRoute_404_iff (db : DBState) (id : String) :
    getUserById db id = db.users.find? (fun u => u.id == id)
    ∧ (getUserByIdRoute db id =
        Except.error { status := 404, message := "User not found" } ↔
      getUserById db id = none)
    ∧ (∀ u : UserRecord, getUserById db id = some u →
        getUserByIdRoute db id = Except.ok u) := by
  refine ⟨rfl, ?_, ?_⟩
  · cases h : getUserById db id <;> simp [getUserByIdRoute, h]
  · intro u h
    simp [getUserByIdRoute, h]

/-- Witness for C5: the 404 branch on an empty users table and the success
branch on a one-row table, at concrete inputs. -/
theorem getUserByIdRoute_404_iff_witness :
    getUserByIdRoute { users := [], sessions := [], accounts := [],
                       verifications := [] } "u1" =
      Except.error { status := 404, message := "User not found" }
    ∧ getUserByIdRoute
        { users := [{ id := "u1", name := "Ada", email := "ada@wysteria.io",
                      phoneNumber := none, emailVerified := true,
                      phoneNumberVerified := none, image := none,
                      createdAt := 0, updatedAt := 7 }],
          sessions := [], accounts := [], verifications := [] } "u1" =
      Except.ok { id := "u1", name := "Ada", email := "ada@wysteria.io",
                  phoneNumber := none, emailVerified := true,
                  phoneNumberVerified := none, image := none,
                  createdAt := 0, updatedAt := 7 } := by
  constructor
  · exact ((getUserByIdRoute_404_iff _ "u1").2.1).mpr rfl
  · exact (getUserByIdRoute_404_iff _ "u1").2.2 _ (by decide)

/-- C6: the auth configuration enables the Google and Apple social
providers, an email OTP plugin whose sender delegates to `sendOTPEmail`, a
phone-number OTP plugin whose sender delegates to `sendSMS`, and the
enabled sign-in methods are exactly OAuth plus email/phone OTP, with no
password sign-in. -/
theorem auth_is_passwordless :
    authConfig.socialProviders = [SocialProvider.google, SocialProvider.apple]
    ∧ enabledSignInMethods authConfig =
        [SignInMethod.oauthGoogle, SignInMethod.oauthApple,
         SignInMethod.emailOTPSignIn, SignInMethod.phoneOTPSignIn]
    ∧ SignInMethod.password ∉ enabledSignInMethods authConfig
    ∧ (∀ e o t, emailOTPSendVerificationOTP e o t = DeliveryAction.sendOTPEmail e o t)
    ∧ (∀ p c, phoneNumberSendOTP p c =
        DeliveryAction.sendSMS p ("Your Wysteria verification code is: " ++ c)) :=
  ⟨rfl, by decide, by decide, fun _ _ _ => rfl, fun _ _ => rfl⟩

/-- C7: the insert set and the select set of the centralized db models
object, and the table exports of the schema index, each consist of exactly
the four tables user, session, account and verification, and every table of
the schema is among them. -/
theorem schema_exactly_four_tables :
    dbInsertKeys =
      [TableName.user, TableName.session, TableName.account, TableName.verification]
    ∧ dbSelectKeys = dbInsertKeys
    ∧ tableExports = dbInsertKeys
    ∧ (∀ t : TableName, t ∈ tableExports) :=
  ⟨rfl, rfl, rfl, fun t => by cases t <;> decide⟩

/-- Removing plus characters is exactly filtering out the plus character. -/
theorem removePlusChars_eq_filter (l : List Char) :
    removePlusChars l = l.filter (fun c => c != '+') := by
  induction l with
  | nil => rfl
  | cons c cs ih =>
    by_cases h : c = '+' <;>
      simp [removePlusChars, List.filter_cons, h, ih]

/-- C9: for every phone number string, the temporary account identity is a
deterministic function of it: the temp email is the phone number with every
plus character removed followed by `@temp.wysteria.io`, and the temp name
is `User ` followed by the phone number unmodified. -/
theorem tempIdentity_deterministic (p : String) :
    getTempEmail p =
      String.mk (p.data.filter (fun c => c != '+')) ++ "@temp.wysteria.io"
    ∧ getTempName p = "User " ++ p :=
  ⟨by rw [getTempEmail, removePlusChars_eq_filter], rfl⟩

/-- C10: when NODE_ENV is production, the primary forks exactly
`os.availableParallelism()` workers (and loads no server itself), each
worker loads the server module, and the exit handler forks exactly one
replacement; when NODE_ENV is not production, no forking occurs and the
server module is loaded once, with no exit handler registered. -/
theorem cluster_entry_point (n : Nat) :
    entryStartupActions true true n = List.replicate n ClusterAction.fork
    ∧ (entryStartupActions true true n).count ClusterAction.fork = n
    ∧ ClusterAction.loadServer ∉ entryStartupActions true true n
    ∧ entryStartupActions true false n = [ClusterAction.loadServer]
    ∧ workerExitActions true true = [ClusterAction.fork]
    ∧ (∀ primary : Bool,
        entryStartupActions false primary n = [ClusterAction.loadServer]
        ∧ ClusterAction.fork ∉ entryStartupActions false primary n
        ∧ workerExitActions false primary = []) := by
  refine ⟨rfl, ?_, ?_, rfl, rfl, fun primary => ⟨rfl, by simp [entryStartupActions], rfl⟩⟩
  · simp [entryStartupActions]
  · simp [entryStartupActions, List.mem_replicate]

/-- C2 counterexample: the step state machine of the login form has exactly
the two states login and verify; its state set is not the four states
login, send-code, verify, session claimed by the specification. -/
theorem loginFlow_not_four_states :
    stepValues.map stepName ≠ ["login", "send-code", "verify", "session"]
    ∧ stepValues.length ≠ 4 := by
  decide

/-- C2 (amended): the OTP sign-in flow is a two-state form state machine
with step states login and verify; sending the code is the auth-client call
awaited during the login-step submit and the transition login → verify
happens exactly when that delegated call resolves, and the session is the
outcome of the auth-client verification call awaited during the verify-step
submit, established exactly when that delegated call succeeds, the form
state itself staying unchanged. -/
theorem loginFlow_two_state_delegated (env : ClientEnv) (s : FormState) :
    (∀ st : Step, st ∈ stepValues)
    ∧ stepValues.map stepName = ["login", "verify"]
    ∧ (s.step = Step.login →
        (onSubmit env s).2.1 = [loginSendCall env s]
        ∧ ((onSubmit env s).1.step = Step.verify ↔
            env.sendOutcome (loginSendCall env s) = SendOutcome.resolved)
        ∧ (onSubmit env s).2.2 = false)
    ∧ (s.step = Step.verify →
        (onSubmit env s).2.1 = [verifyStepCall s]
        ∧ (onSubmit env s).1 = s
        ∧ ((onSubmit env s).2.2 = true ↔
            env.verifyOutcome (verifyStepCall s) = VerifyOutcome.ok)) := by
  refine ⟨fun st => by cases st <;> simp [stepValues], by decide, ?_, ?_⟩
  · intro h
    simp only [onSubmit, h, loginSendCall]
    by_cases hp : env.isValidPhone (trimWS s.identifier) <;> simp only [hp, if_true, if_false]
    · cases ho : env.sendOutcome (AuthCall.phoneSendOtp (env.formatE164 (trimWS s.identifier))) <;>
        simp [ho]
    · cases ho : env.sendOutcome (AuthCall.emailSendVerificationOtp (trimWS s.identifier)) <;>
        simp [ho]
  · intro h
    simp only [onSubmit, h]
    cases ho : env.verifyOutcome (verifyStepCall s) <;> simp [ho]

/-- Witness for C2 (amended): the login branch and the verify branch of the
amended statement, at concrete environments and form states. -/
theorem loginFlow_two_state_delegated_witness :
    (onSubmit envResolved
        { identifier := "5551234", otp := "", step := Step.login,
          method := AuthMethod.email }).2.1 =
      [loginSendCall envResolved
        { identifier := "5551234", otp := "", step := Step.login,
          method := AuthMethod.email }]
    ∧ (onSubmit envResolved
        { identifier := "ada@wysteria.io", otp := "123456", step := Step.verify,
          method := AuthMethod.email }).1 =
      { identifier := "ada@wysteria.io", otp := "123456", step := Step.verify,
        method := AuthMethod.email } := by
  constructor
  · exact ((loginFlow_two_state_delegated envResolved _).2.2.1 rfl).1
  · exact ((loginFlow_two_state_delegated envResolved _).2.2.2 rfl).2.1

/-- C8: in the submit handler, starting from the login step, the step
becomes verify exactly when the awaited send-code call resolves; when the
send throws, the step stays login and the identifier and otp fields are
unchanged; and on a resolved send for a phone identifier the identifier is
replaced by its E.164-formatted form before the transition. -/
theorem loginStep_transition_on_send (env : ClientEnv) (s : FormState)
    (h : s.step = Step.login) :
    ((onSubmit env s).1.step = Step.verify ↔
      env.sendOutcome (loginSendCall env s) = SendOutcome.resolved)
    ∧ (env.sendOutcome (loginSendCall env s) = SendOutcome.threw →
        (onSubmit env s).1.step = Step.login
        ∧ (onSubmit env s).1.identifier = s.identifier
        ∧ (onSubmit env s).1.otp = s.otp)
    ∧ (env.sendOutcome (loginSendCall env s) = SendOutcome.resolved →
        env.isValidPhone (trimWS s.identifier) = true →
        (onSubmit env s).1.identifier = env.formatE164 (trimWS s.identifier)) := by
  simp only [onSubmit, h, loginSendCall]
  by_cases hp : env.isValidPhone (trimWS s.identifier) <;> simp only [hp, if_true, if_false]
  · cases ho : env.sendOutcome (AuthCall.phoneSendOtp (env.formatE164 (trimWS s.identifier))) <;>
      simp [ho, h]
  · cases ho : env.sendOutcome (AuthCall.emailSendVerificationOtp (trimWS s.identifier)) <;>
      simp [ho, h, hp]

/-- Witness for C8: a resolved phone send transitions to verify and formats
the identifier, and a thrown send leaves the form on the login step, at
concrete environments and form states. -/
theorem loginStep_transition_on_send_witness :
    (onSubmit envResolved
        { identifier := "5551234", otp := "", step := Step.login,
          method := AuthMethod.email }).1.step = Step.verify
    ∧ (onSubmit envResolved
        { identifier := "5551234", otp := "", step := Step.login,
          method := AuthMethod.email }).1.identifier = "+15551234"
    ∧ (onSubmit envThrew
        { identifier := "ada@wysteria.io", otp := "", step := Step.login,
          method := AuthMethod.email }).1.step = Step.login := by
  refine ⟨?_, ?_, ?_⟩
  · exact ((loginStep_transition_on_send envResolved
      { identifier := "5551234", otp := "", step := Step.login,
        method := AuthMethod.email } rfl).1).mpr rfl
  · exact ((loginStep_transition_on_send envResolved
      { identifier := "5551234", otp := "", step := Step.login,
        method := AuthMethod.email } rfl).2.2 rfl rfl).trans (by decide)
  · exact ((loginStep_transition_on_send envThrew
      { identifier := "ada@wysteria.io", otp := "", step := Step.login,
        method := AuthMethod.email } rfl).2.1 rfl).1

end Wysteria
